import Mathlib

/-!
# LeadBridge — shallow embedding and verification

Shallow embedding of the lead-to-conversion reconciliation engine of the
`ads` Django app (files `ads/tasks.py`, `ads/views.py`, `ads/models.py`,
`ads/services/shopmonkey.py`, `ads/services/google_ads.py`).

Python JSON values are embedded as the inductive `Json` (integers only for
numbers — all numeric fields used by the engine are integer cents).
External libraries (the `requests` HTTP layer, the Google Ads client
transport, `hashlib.sha256`) are modelled as parameters of an `Env`
record: the repository's own control flow around them is translated
faithfully, statement by statement.
-/

namespace LeadBridge

/-- Embedded Python/JSON value (numbers restricted to integers, which is
all the engine reads: `totalCostCents`). -/
inductive Json where
  | null
  | bool (b : Bool)
  | num (n : Int)
  | str (s : String)
  | arr (xs : List Json)
  | obj (fields : List (String × Json))

/-- Python truthiness of a JSON value (`if x:`). -/
def Json.truthy : Json → Bool
  | .null => false
  | .bool b => b
  | .num n => n != 0
  | .str s => s != ""
  | .arr xs => !xs.isEmpty
  | .obj fs => !fs.isEmpty

/-- `str.lower()` (character-wise, at the character-list level so that
concrete evaluations reduce). -/
def strLower (s : String) : String := ⟨s.data.map Char.toLower⟩

/-- `s[:n]` for strings. -/
def strTake (s : String) (n : Nat) : String := ⟨s.data.take n⟩

/-- `s[n:]` for strings. -/
def strDrop (s : String) (n : Nat) : String := ⟨s.data.drop n⟩

/-- `s.startswith(p)`. -/
def strStartsWith (s p : String) : Bool := p.data.isPrefixOf s.data

/-- `s.strip()`: drop whitespace from both ends. -/
def strTrim (s : String) : String :=
  ⟨((s.data.dropWhile Char.isWhitespace).reverse.dropWhile Char.isWhitespace).reverse⟩

/-- Numeric value of a digit string. -/
def digitsVal (l : List Char) : Nat := l.foldl (fun acc c => acc * 10 + (c.toNat - 48)) 0

/-- `dict` key lookup on the field list (first binding wins). -/
def jlookup (fs : List (String × Json)) (k : String) : Option Json :=
  (fs.find? (fun p => p.1 == k)).map (fun p => p.2)

/-- Python `payload.get(k)` with default `None`; raises `AttributeError`
(modelled as `Except.error ()`) when the receiver is not a dict. -/
def pyGet : Json → String → Except Unit Json
  | .obj fs, k => .ok ((jlookup fs k).getD .null)
  | _, _ => .error ()

/-- Python `a or b` specialised to JSON values. -/
def pyOrJ (a b : Json) : Json := if a.truthy then a else b

/-- Python `int(x)`: `none` models `TypeError`/`ValueError`. Strings are
trimmed, an optional sign is allowed, and the rest must be digits. -/
def pyInt : Json → Option Int
  | .num n => some n
  | .bool b => some (if b then 1 else 0)
  | .str s =>
    let t := strTrim s
    let core := if strStartsWith t "-" || strStartsWith t "+" then strDrop t 1 else t
    if core != "" && core.data.all Char.isDigit then
      some (if strStartsWith t "-" then -(digitsVal core.data : Int) else (digitsVal core.data : Int))
    else none
  | _ => none

mutual

/-- Python `str(x)` (`repr` for elements nested inside containers). -/
def pyStr : Json → String
  | .null => "None"
  | .bool b => if b then "True" else "False"
  | .num n => toString n
  | .str s => s
  | .arr xs => "[" ++ pyReprList xs ++ "]"
  | .obj fs => "\x7b" ++ pyReprFields fs ++ "\x7d"

/-- `repr` of a JSON value, as it appears inside a rendered container. -/
def pyRepr : Json → String
  | .str s => "'" ++ s ++ "'"
  | .null => "None"
  | .bool b => if b then "True" else "False"
  | .num n => toString n
  | .arr xs => "[" ++ pyReprList xs ++ "]"
  | .obj fs => "\x7b" ++ pyReprFields fs ++ "\x7d"

def pyReprList : List Json → String
  | [] => ""
  | [x] => pyRepr x
  | x :: xs => pyRepr x ++ ", " ++ pyReprList xs

def pyReprFields : List (String × Json) → String
  | [] => ""
  | [(k, v)] => "'" ++ k ++ "': " ++ pyRepr v
  | (k, v) :: fs => "'" ++ k ++ "': " ++ pyRepr v ++ ", " ++ pyReprFields fs

end

/-- Substring test (`needle in haystack` for Python strings). -/
def containsSub (hay pat : String) : Bool :=
  (List.range (hay.data.length + 1)).any fun i => strStartsWith (strDrop hay i) pat

/-- `re.sub(r"[^0-9]", "", s)` / `re.sub(r"\D", "", s)`. -/
def stripNonDigits (s : String) : String := ⟨s.data.filter Char.isDigit⟩

-- ==================================================================
-- ads/tasks.py — helpers for enhanced conversions
-- ==================================================================

/-- `ads/tasks.py::normalize_phone`: returns `None` for a falsy input,
otherwise strips non-digits and then `lstrip("1")` — i.e. removes EVERY
leading `'1'`, for inputs of any length. -/
def normalize_phone (phone : String) : Option String :=
  if phone = "" then none
  else some ⟨(stripNonDigits phone).data.dropWhile (fun c => c == '1')⟩

/-- `ads/tasks.py::hash_identifier`: `None` for falsy input, otherwise the
SHA-256 hex digest (the digest function is the environment parameter
`hashFn`, standing for `hashlib.sha256(·).hexdigest()`) of the
stripped, lowercased value. -/
def hash_identifier (hashFn : String → String) : Option String → Option String
  | none => none
  | some v => if v = "" then none else some (hashFn (strLower (strTrim v)))

-- ==================================================================
-- ads/views.py — qualification policy
-- ==================================================================

/-- The fixed recognized status list of `ads/views.py::is_call_qualified`. -/
def qualifiedStatuses : List String :=
  ["good", "good_lead", "qualified", "qualified_lead", "previously_marked_good_lead"]

/-- Python `needle in container` for the milestone membership test:
keys of a dict, elements of a list, substring of a string; `TypeError`
(modelled as `Except.error ()`) on numbers/booleans/None. -/
def pyIn (needle : String) : Json → Except Unit Bool
  | .obj fs => .ok (fs.any (fun p => p.1 == needle))
  | .arr xs => .ok (xs.any (fun x => match x with | .str s => s == needle | _ => false))
  | .str s => .ok (containsSub s needle)
  | _ => .error ()

/-- `ads/views.py::is_call_qualified`, translated statement by statement:
`milestones = (payload.get("milestones") or \x7b\x7d)` then
`"qualified" in milestones`, then the case-SENSITIVE membership of
`lead_status` in the fixed list, OR-ed with the milestone flag. -/
def is_call_qualified (lead_status : String) (payload : Json) : Except Unit Bool := do
  let m ← pyGet payload "milestones"
  let m := if m.truthy then m else Json.obj []
  let hasQ ← pyIn "qualified" m
  return (qualifiedStatuses.contains lead_status || hasQ)

/-- Follows the claim C8's words (NOT the source): the status is matched
case-insensitively. A second definition, kept only to compare with the
source-derived `is_call_qualified`. -/
def is_call_qualified_claimCI (lead_status : String) (payload : Json) : Except Unit Bool := do
  let m ← pyGet payload "milestones"
  let m := if m.truthy then m else Json.obj []
  let hasQ ← pyIn "qualified" m
  return (qualifiedStatuses.contains (strLower lead_status) || hasQ)

/-- Follows the claim C9's words (NOT the source): strip non-digits, then
strip exactly ONE leading country-code digit `'1'` when (and only when)
the digit string is a 10- or 11-digit US number. -/
def normalize_phone_claimOneStrip (phone : String) : Option String :=
  if phone = "" then none
  else
    let digits := stripNonDigits phone
    if (digits.data.length = 10 ∨ digits.data.length = 11) ∧ strStartsWith digits "1" then
      some (strDrop digits 1)
    else some digits

-- ==================================================================
-- ads/services/shopmonkey.py — order lookup client
-- ==================================================================

/-- `ads/services/shopmonkey.py::normalize_us_phone`. -/
def normalize_us_phone (raw : String) : String :=
  let digits := stripNonDigits raw
  if digits = "" then ""
  else if digits.data.length = 10 then "+1" ++ digits
  else if digits.data.length = 11 && strStartsWith digits "1" then "+" ++ digits
  else if !(strStartsWith raw "+") then "+" ++ digits else raw

/-- One HTTP exchange as observed by the client.  `json` is the value
`resp.json()` would produce (the HTTP/JSON library is external). -/
structure HttpResp where
  status : Nat
  contentType : String
  body : String
  json : Json

/-- Outcome of one `session.get` call: either a `requests` exception
(SSL/network) or a response. -/
inductive HttpOutcome where
  | netError (msg : String)
  | resp (r : HttpResp)

/-- Errors `fetch_orders_by_phone` can raise: `ShopmonkeyWAFBlocked`,
`ShopmonkeyAPIError` (messages carried for diagnostics), or an
uncaught Python exception such as the `AttributeError` from calling
`.get` on a non-dict payload. -/
inductive FetchErr where
  | wafBlocked
  | apiError (msg : String)
  | pyError (msg : String)

/-- Lines 62–68 of `shopmonkey.py`: HTML 403 with Cloudflare/challenge
markers in the first 300 characters of the body. -/
def wafBlockedResp (r : HttpResp) : Bool :=
  r.status == 403 && containsSub (strLower r.contentType) "text/html" &&
    (let h := strLower (strTake r.body 300)
     containsSub h "cloudflare" || containsSub h "<html")

/-- Lines 83–90: the item list is the first truthy of
`data` / `orders` / `items` (the bare-array fallback is unreachable for a
dict payload), coerced to `[]` unless it is a list. -/
def extractItems (fs : List (String × Json)) : List Json :=
  let v := pyOrJ ((jlookup fs "data").getD .null)
    (pyOrJ ((jlookup fs "orders").getD .null)
      (pyOrJ ((jlookup fs "items").getD .null) (Json.arr [])))
  match v with
  | .arr xs => xs
  | _ => []

/-- Lines 93–99: the continuation-token field name is discovered once,
from key PRESENCE, in the fixed order `next`, `nextPageToken`,
`pageToken`. -/
def discoverTk (tk : Option String) (fs : List (String × Json)) : Option String :=
  match tk with
  | some k => some k
  | none =>
    if fs.any (fun p => p.1 == "next") then some "next"
    else if fs.any (fun p => p.1 == "nextPageToken") then some "nextPageToken"
    else if fs.any (fun p => p.1 == "pageToken") then some "pageToken"
    else none

/-- `max_pages` default of `fetch_orders_by_phone`. -/
def max_pages : Nat := 50

/-- The `while True` loop of `fetch_orders_by_phone`, fuel-indexed:
`none` means the fuel ran out, i.e. the loop has not returned within
`fuel` iterations.  State mirrors the source: `req` counts HTTP requests
(the response stream is indexed by it), `out` is the accumulator, `page`
the page counter, `tk` the discovered token key, `pTok` the
`params["pageToken"]` entry.  On 429 the source sleeps `2 + page` seconds
and retries the same page without changing any state and without any
retry bound. -/
def fetchLoop (stream : Nat → HttpOutcome) : Nat → List Json → Nat →
    Option String → Option Json → Nat → Option (Except FetchErr (List Json))
  | _, _, _, _, _, 0 => none
  | req, out, page, tk, pTok, fuel + 1 =>
    match stream req with
    | .netError msg => some (.error (.apiError msg))
    | .resp r =>
      if wafBlockedResp r then some (.error .wafBlocked)
      else if r.status = 401 then
        some (.error (.apiError "Unauthorized (401): Check SHOPMONKEY_API_KEY and scopes."))
      else if r.status = 429 then
        -- time.sleep(2 + page); continue
        fetchLoop stream (req + 1) out page tk pTok fuel
      else if !(200 ≤ r.status && r.status < 300) then
        some (.error (.apiError ("HTTP " ++ toString r.status)))
      else
        match r.json with
        | .obj fs =>
          let out' := out ++ extractItems fs
          let tk' := discoverTk tk fs
          let ntok : Json := match tk' with
            | some k => (jlookup fs k).getD .null
            | none => .null
          if !ntok.truthy then some (.ok out')
          else if page + 1 ≥ max_pages then some (.ok out')
          else fetchLoop stream (req + 1) out' (page + 1) tk' (some ntok) fuel
        | _ =>
          -- payload.get("data") on a non-dict raises AttributeError
          some (.error (.pyError "AttributeError"))

/-- `ads/services/shopmonkey.py::fetch_orders_by_phone`: empty normalized
phone short-circuits to `[]` with no request; otherwise the loop runs. -/
def fetch_orders_by_phone (stream : Nat → HttpOutcome) (phone : String)
    (fuel : Nat) : Option (Except FetchErr (List Json)) :=
  if normalize_us_phone phone = "" then some (.ok [])
  else fetchLoop stream 0 [] 0 none none fuel

-- ==================================================================
-- ads/services/google_ads.py — conversion upload client
-- ==================================================================

/-- The data of a `GoogleAdsException` used by `upload_gclid_conversion`. -/
structure GoogleAdsExc where
  request_id : String
  failure : String
  error_code : Option String

/-- One per-conversion result from the platform (proto string fields
default to `""`). -/
structure GclidResult where
  gclid : String
  conversion_action : String

/-- Platform response to `upload_click_conversions` (partial-failure
message when present). -/
structure ClickConvResponse where
  results : List GclidResult
  batchError : Option String  -- response.partial_failure_error.message

/-- One entry of the `results` list built by `upload_gclid_conversion`. -/
structure ResDict where
  gclid : String
  conversion_action : String
  success : Bool

/-- The dict returned by `upload_gclid_conversion`: either
`\x7b"results": …, "partial_failure": …\x7d` or `\x7b"error": …\x7d`. -/
inductive UploadDict where
  | ok (results : List ResDict) (batchError : Option String)
  | err (request_id : String) (failure : String) (error_code : Option String)

/-- `ads/services/google_ads.py::upload_gclid_conversion`, lines 98–133:
the platform call's outcome is the argument.  On success it builds the
result dicts (`success := bool(res.gclid)`); on `GoogleAdsException` it
CATCHES the exception and RETURNS `\x7b"error": …\x7d` — it never raises. -/
def upload_gclid_conversion (platform : Except GoogleAdsExc ClickConvResponse) : UploadDict :=
  match platform with
  | .ok resp =>
    .ok (resp.results.map fun res =>
      { gclid := res.gclid, conversion_action := res.conversion_action,
        success := res.gclid != "" }) resp.batchError
  | .error ex => .err ex.request_id ex.failure ex.error_code

/-- Modelled from the spec: `upload_enhanced_conversion` is imported by
`ads/tasks.py` from `ads.services.google_ads` but its definition is not
under `src/`.  Spec §4.4: `uploadByHashedIdentity(phoneDigest,
emailDigest, value, timestamp, orderRef) -> UploadResult|none` —
"Requires at least one digest to be present; returns none (skip, not
error) if both are absent"; otherwise it performs the batch offline
user-data job and returns the platform's result (supplied by the
environment). -/
structure UploadResult where
  results : List String
  batchError : Option String  -- partial_failure_error.message when present

/-- Modelled from the spec: see `UploadResult`.  `enhancedResp` is the
ad-platform's answer for the given order reference. -/
def upload_enhanced_conversion (enhancedResp : String → Option UploadResult)
    (phone_hash email_hash : Option String) (_value_cents : Int)
    (_conversion_time : String) (order_id : String) : Option UploadResult :=
  if phone_hash = none ∧ email_hash = none then none
  else enhancedResp order_id

-- ==================================================================
-- ads/models.py — persisted rows and declared uniqueness
-- ==================================================================

/-- `ads/models.py::CallRecord` (the columns the engine reads/writes). -/
structure CallRecordRow where
  id : Nat
  callrail_id : String
  phone : String
  gclid : String  -- blank/NULL folded to "" (falsy either way)
  payload : Json
  processed : Bool

/-- `ads/models.py::ShopmonkeyOrder`. -/
structure SMOrderRow where
  order_id : String
  phone : String
  total_cents : Int
  archived : Bool
  raw : Json

/-- `ads/models.py::OfflineConversion` (`order` FK is referenced through
the unique `order_id` of the `ShopmonkeyOrder` row). -/
structure ConversionRow where
  gclid : String
  orderRef : String
  /-- The two-place decimal amount `Decimal(total_cents)/Decimal(100)`,
  represented exactly by its integer value in cents. -/
  value_cents : Int
  uploaded : Bool
  upload_response : List String
deriving DecidableEq

/-- The sets of columns declared unique in `models.py`, per table:
`CallRecord.callrail_id` is `unique=True`, `ShopmonkeyOrder.order_id` is
`unique=True`, and `OfflineConversion` declares NO uniqueness
(no `unique=True` field, no `Meta.unique_together`/`UniqueConstraint`). -/
def offlineConversionUniqueSets : List (List String) := []

/-- Follows the claim C2's words (NOT the source): a uniqueness
constraint on (matching key, order reference) at the storage layer. -/
def offlineConversionUniqueSets_claim : List (List String) := [["gclid", "order"]]

/-- Column valuation of an `OfflineConversion` row, for uniqueness checks. -/
def convColumn (r : ConversionRow) : String → String :=
  fun c => if c = "gclid" then r.gclid else if c = "order" then r.orderRef else ""

/-- Whether the storage layer accepts inserting `r` into `store` under the
declared unique column sets: the insert fails iff some declared set
matches an existing row on every column. -/
def insertAllowed (uniq : List (List String)) (store : List ConversionRow)
    (r : ConversionRow) : Bool :=
  !(uniq.any fun cols => store.any fun s => cols.all fun c => convColumn s c == convColumn r c)

-- ==================================================================
-- ads/tasks.py — the reconciliation worker
-- ==================================================================

/-- The database: three tables as lists of rows. -/
structure DB where
  callRecords : List CallRecordRow
  orders : List SMOrderRow
  conversions : List ConversionRow

/-- Environment of one invocation, standing for everything outside the
repository's own code: the outcome of `fetch_orders_by_phone`, the ad
platform's answers (keyed by order id), the SHA-256 hex digest function,
and the formatted `timezone.now()` string. -/
structure Env where
  fetch : Except FetchErr (List Json)
  google : String → Except GoogleAdsExc ClickConvResponse
  enhancedResp : String → Option UploadResult
  hashFn : String → String
  now : String

/-- Network calls to the ad platform made during an invocation (these
happen inside the critical section and are NOT rolled back). -/
inductive CallEvent where
  | gclidUpload (gclid : String) (order_id : String)
  | enhancedUpload (phone_hash email_hash : Option String) (order_id : String)
deriving DecidableEq

/-- Terminal outcome of one Celery invocation: a returned status, a
`self.retry(countdown=…)` reschedule, or an uncaught exception failing
the task. -/
inductive TaskOutcome where
  | ok
  | pending_orders
  | already_processed
  | waf_blocked
  | retry (countdown : Nat)
  | failed
deriving DecidableEq

/-- Mutable state of the per-order loop inside the transaction. -/
structure LoopSt where
  orders : List SMOrderRow
  convs : List ConversionRow
  created_any : Bool
  qualifying_found : Bool
  calls : List CallEvent

/-- Abort of the critical section: a `self.retry` raised inside the
transaction, or an uncaught Python exception.  Both roll the transaction
back; the ad-platform calls already made are carried along. -/
inductive Abort where
  | retry (countdown : Nat) (calls : List CallEvent)
  | crash (calls : List CallEvent)

/-- The ad-platform calls already performed when the per-order loop body
ends in the given way (calls are network effects: they survive a
transaction rollback). -/
def callsOf : Except Abort LoopSt → List CallEvent
  | .ok st => st.calls
  | .error (.retry _ calls) => calls
  | .error (.crash calls) => calls

/-- Lines 59–69 of `tasks.py`.  `self.retry(...)` raises
`celery.exceptions.Retry`, a subclass of `Exception`; hence the
`raise self.retry(countdown=86400)` for an empty order list is caught by
the following `except Exception` clause, which re-raises with
`countdown=3600`.  `ShopmonkeyWAFBlocked` is matched by its own clause
first and returns `"waf_blocked"`. -/
def step1 (fetch : Except FetchErr (List Json)) : Except TaskOutcome (List Json) :=
  match fetch with
  | .error .wafBlocked => .error .waf_blocked
  | .error _ => .error (.retry 3600)
  | .ok orders => if orders.isEmpty then .error (.retry 3600) else .ok orders

/-- `ads/tasks.py` line 95, the order-finalization predicate:
`(archived or paid or invoiced) and total_cents > 0`. -/
def isOrderFinalized (archived paid invoiced : Bool) (total_cents : Int) : Bool :=
  (archived || paid || invoiced) && total_cents > 0

/-- `int(o.get("totalCostCents") or 0)` with `except (TypeError,
ValueError): total_cents = 0` (lines 86–89). -/
def toTotalCents (v : Json) : Int := (pyInt (pyOrJ v (.num 0))).getD 0

/-- `ShopmonkeyOrder.objects.update_or_create(order_id=…, defaults=…)`:
overwrite the row with that `order_id`, or append a new one. -/
def upsertOrder (rows : List SMOrderRow) (row : SMOrderRow) : List SMOrderRow :=
  if rows.any (fun r => r.order_id == row.order_id) then
    rows.map (fun r => if r.order_id == row.order_id then row else r)
  else rows ++ [row]

/-- Number of `OfflineConversion` rows matching a (matching key, order)
pair — what `get_or_create(gclid=…, order=…)` would `get`. -/
def pairCount (convs : List ConversionRow) (key oid : String) : Nat :=
  convs.countP (fun c => c.gclid == key && c.orderRef == oid)

/-- Lines 164–172: `get_or_create` on (gclid, order) then set
`upload_response` and `uploaded=True` and save.  More than one existing
match makes `get_or_create` raise `MultipleObjectsReturned` (crash);
otherwise the matched or created row is updated in place.  Returns the
new conversion list and the `created` flag. -/
def saveConversion (convs : List ConversionRow) (key oid : String) (value_cents : Int)
    (respResults : List String) : Except Unit (List ConversionRow × Bool) :=
  let n := pairCount convs key oid
  if n ≥ 2 then .error ()
  else
    let base := if n = 0 then
        convs ++ [{ gclid := key, orderRef := oid, value_cents := value_cents,
                    uploaded := false, upload_response := [] }]
      else convs
    .ok (base.map (fun c =>
      if c.gclid == key && c.orderRef == oid then
        { c with uploaded := true, upload_response := respResults }
      else c), n = 0)

/-- `hash_identifier(record.payload.get("customer_email"))` applied to a
JSON value: falsy values give `None`; a truthy string is hashed; a truthy
non-string would hit `.strip()` and raise `AttributeError` (crash). -/
def hashJsonValue (hashFn : String → String) (v : Json) : Except Unit (Option String) :=
  if !v.truthy then .ok none
  else match v with
    | .str s => .ok (hash_identifier hashFn (some s))
    | _ => .error ()

/-- `str(o.get("id") or "")` (line 100). -/
def orderIdOf (fs : List (String × Json)) : String :=
  if ((jlookup fs "id").getD .null).truthy then pyStr ((jlookup fs "id").getD .null) else ""

/-- The `ShopmonkeyOrder` row upserted for a finalized order (lines
102–110; `defaults` carry phone, total_cents, archived and the raw
payload). -/
def orderRowOf (phone : String) (fs : List (String × Json)) : SMOrderRow :=
  { order_id := orderIdOf fs, phone := phone,
    total_cents := toTotalCents ((jlookup fs "totalCostCents").getD .null),
    archived := ((jlookup fs "archived").getD .null).truthy, raw := .obj fs }

/-- The finalization test as the worker computes it on the raw order
payload (a non-dict order crashes before the test; that is `false`
here only for totality — such orders never reach the predicate). -/
def finalizedJ : Json → Bool
  | .obj fs =>
    isOrderFinalized ((jlookup fs "archived").getD .null).truthy
      ((jlookup fs "paid").getD .null).truthy
      ((jlookup fs "invoiced").getD .null).truthy
      (toTotalCents ((jlookup fs "totalCostCents").getD .null))
  | _ => false

/-- Python `a or b or c` over strings-with-`""`-falsy and optional
hashes, for `gclid or phone_hash or email_hash` (line 166). -/
def matchingKey (gclid : String) (phone_hash email_hash : Option String) : String :=
  if gclid ≠ "" then gclid
  else match phone_hash with
    | some p => if p ≠ "" then p else (email_hash.getD "")
    | none => email_hash.getD ""

/-- The body of `for o in orders:` (lines 81–173), one order.  `gclid` is
the value read before the transaction (line 54). -/
def processOrder (env : Env) (recPhone : String) (recPayload : Json)
    (gclid : String) (st : LoopSt) (o : Json) : Except Abort LoopSt :=
  match o with
  | .obj fs =>
    let archived := ((jlookup fs "archived").getD .null).truthy
    let paid := ((jlookup fs "paid").getD .null).truthy
    let invoiced := ((jlookup fs "invoiced").getD .null).truthy
    let total_cents := toTotalCents ((jlookup fs "totalCostCents").getD .null)
    if !isOrderFinalized archived paid invoiced total_cents then
      .ok st  -- continue: skipped, nothing deleted
    else
      let st := { st with qualifying_found := true }
      let order_id := orderIdOf fs
      let orders' := upsertOrder st.orders (orderRowOf recPhone fs)
      -- value = Decimal(total_cents)/Decimal(100) if total_cents else Decimal("0"),
      -- an exact two-place decimal represented by its cent count
      let value : Int := if total_cents ≠ 0 then total_cents else 0
      if gclid ≠ "" then
        -- try: resp = upload_gclid_conversion(...)  except GoogleAdsException → retry(7200).
        -- The service catches GoogleAdsException itself and returns a dict,
        -- so the worker's handler can only see Except.ok here.
        match (Except.ok (upload_gclid_conversion (env.google order_id)) :
            Except GoogleAdsExc UploadDict) with
        | .error _ => .error (.retry 7200 st.calls)
        | .ok _resp =>
          let calls' := st.calls ++ [.gclidUpload gclid order_id]
          -- getattr(resp, "results", []) on a dict always yields the default []
          match saveConversion st.convs (matchingKey gclid none none) order_id value [] with
          | .error _ => .error (.crash calls')
          | .ok (convs', _) =>
            .ok { orders := orders', convs := convs', created_any := true,
                  qualifying_found := true, calls := calls' }
      else
        let phone_hash := hash_identifier env.hashFn (normalize_phone recPhone)
        match pyGet recPayload "customer_email" with
        | .error _ => .error (.crash st.calls)
        | .ok emailJ =>
          match hashJsonValue env.hashFn emailJ with
          | .error _ => .error (.crash st.calls)
          | .ok email_hash =>
            if phone_hash = none ∧ email_hash = none then
              -- continue: skip upload, but the order was already upserted
              .ok { st with orders := orders' }
            else
              let resp := upload_enhanced_conversion env.enhancedResp
                phone_hash email_hash value env.now order_id
              let calls' := st.calls ++ [.enhancedUpload phone_hash email_hash order_id]
              -- getattr(resp, "results", []) or []
              let respResults := (resp.map (fun r => r.results)).getD []
              match saveConversion st.convs (matchingKey gclid phone_hash email_hash)
                  order_id value respResults with
              | .error _ => .error (.crash calls')
              | .ok (convs', _) =>
                .ok { orders := orders', convs := convs', created_any := true,
                      qualifying_found := true, calls := calls' }
  | _ => .error (.crash st.calls)  -- o.get("archived") on a non-dict: AttributeError

/-- The whole `for o in orders:` loop. -/
def processOrders (env : Env) (recPhone : String) (recPayload : Json)
    (gclid : String) : List Json → LoopSt → Except Abort LoopSt
  | [], st => .ok st
  | o :: rest, st =>
    match processOrder env recPhone recPayload gclid st o with
    | .error a => .error a
    | .ok st' => processOrders env recPhone recPayload gclid rest st'

/-- `ads/tasks.py::process_call_record`.  Returns `none` when the initial
`CallRecord.objects.get` raises `DoesNotExist`.  The result carries the
outcome, the database after commit/rollback, and the ad-platform calls
made.  The transaction commits only on normal completion; a retry or an
uncaught exception inside `transaction.atomic()` rolls every write back
(the line-181 `self.retry(countdown=86400)` propagates with its own
countdown — unlike line 63's, no `except` surrounds it). -/
def process_call_record (env : Env) (db : DB) (record_id : Nat) :
    Option (TaskOutcome × DB × List CallEvent) :=
  match db.callRecords.find? (fun r => r.id == record_id) with
  | none => none
  | some base =>
    match step1 env.fetch with
    | .error out => some (out, db, [])
    | .ok orders =>
      -- with transaction.atomic(): record = …select_for_update().get(…)
      match db.callRecords.find? (fun r => r.id == record_id) with
      | none => none
      | some record =>
        if record.processed then some (.already_processed, db, [])
        else
          match processOrders env record.phone record.payload base.gclid orders
            { orders := db.orders, convs := db.conversions, created_any := false,
              qualifying_found := false, calls := [] } with
          | .error (.retry c calls) => some (.retry c, db, calls)
          | .error (.crash calls) => some (.failed, db, calls)
          | .ok st =>
            if st.created_any || st.qualifying_found then
              some ((if st.created_any then .ok else .pending_orders),
                { callRecords := db.callRecords.map (fun r =>
                    if r.id == record_id then { r with processed := true } else r),
                  orders := st.orders, conversions := st.convs }, st.calls)
            else
              some (.retry 86400, db, st.calls)

/-- End-to-end composition: run the order-lookup client against an HTTP
response stream (with `fuel` bounding loop iterations), then the worker.
`none` when the record is missing or the lookup loop has not returned
within `fuel` iterations. -/
def processWithHttp (stream : Nat → HttpOutcome) (fuel : Nat)
    (google : String → Except GoogleAdsExc ClickConvResponse)
    (enhancedResp : String → Option UploadResult) (hashFn : String → String)
    (now : String) (db : DB) (record_id : Nat) :
    Option (TaskOutcome × DB × List CallEvent) :=
  match db.callRecords.find? (fun r => r.id == record_id) with
  | none => none
  | some base =>
    match fetch_orders_by_phone stream base.phone fuel with
    | none => none
    | some f =>
      process_call_record
        { fetch := f, google := google, enhancedResp := enhancedResp,
          hashFn := hashFn, now := now } db record_id

-- Concrete fixtures ------------------------------------------------

/-- A finalized order payload: archived, 2500 cents. -/
def ord1 : Json := .obj [("id", .str "O1"), ("archived", .bool true), ("totalCostCents", .num 2500)]

/-- A lead with a click identifier. -/
def recG : CallRecordRow := ⟨1, "CR1", "5551234567", "G", .obj [], false⟩

/-- Database holding only `recG`. -/
def dbG : DB := ⟨[recG], [], []⟩

/-- A hard platform exception (quota), as `GoogleAdsException` data. -/
def excQuota : GoogleAdsExc := ⟨"req-7", "QuotaError", some "RESOURCE_EXHAUSTED"⟩

/-- Environment where the commerce API returns one finalized order and
the ad platform raises `GoogleAdsException` on every upload. -/
def envExc : Env := ⟨.ok [ord1], fun _ => .error excQuota, fun _ => none, fun s => "h:" ++ s, "t"⟩

/-- Environment where the commerce API returns zero orders. -/
def envZero : Env := ⟨.ok [], fun _ => .error excQuota, fun _ => none, fun s => "h:" ++ s, "t"⟩

/-- Environment where the commerce API returns `ord1` and the platform
accepts the gclid upload. -/
def envOk : Env :=
  ⟨.ok [ord1], fun _ => .ok ⟨[⟨"G", "act"⟩], none⟩, fun _ => none, fun s => "h:" ++ s, "t"⟩

/-- Mirrored `ShopmonkeyOrder` row for `ord1`. -/
def smoG : SMOrderRow := ⟨"O1", "5551234567", 2500, true, ord1⟩

/-- An already-uploaded conversion row for the pair ("G", "O1"). -/
def convG : ConversionRow := ⟨"G", "O1", 2500, true, []⟩

/-- Database state in which the conversion for ("G", "O1") already has
`uploaded=true` while the lead is not yet marked processed. -/
def dbRetry : DB := ⟨[recG], [smoG], [convG]⟩

/-- The state `dbG` evolves to when `envExc` or `envOk` processing
commits: processed lead, mirrored order, uploaded conversion. -/
def dbG' : DB := ⟨[⟨1, "CR1", "5551234567", "G", .obj [], true⟩], [smoG], [convG]⟩

/-- A concrete environment for witnesses. -/
def envTriv : Env := ⟨.ok [], fun _ => .ok ⟨[], none⟩, fun _ => none, fun s => s, ""⟩

/-- The application-level idempotency-key invariant: at most one
`OfflineConversion` row per (matching key, order reference) pair. -/
def noDupPairs (convs : List ConversionRow) : Prop :=
  ∀ key oid, pairCount convs key oid ≤ 1

/-- A lead with neither click identifier nor any usable contact digest
(empty phone, no `customer_email` in the payload). -/
def recP : CallRecordRow := ⟨1, "CR1", "", "", .obj [], false⟩

/-- Database holding only `recP`. -/
def dbP : DB := ⟨[recP], [], []⟩

/-- Environment returning one finalized order for `recP`. -/
def envP : Env := ⟨.ok [ord1], fun _ => .ok ⟨[], none⟩, fun _ => none, fun s => s, "t"⟩

/-- The state `dbP` evolves to: the finalized order is recorded and the
lead is marked processed although no upload was possible. -/
def dbP' : DB := ⟨[⟨1, "CR1", "", "", .obj [], true⟩], [⟨"O1", "", 2500, true, ord1⟩], []⟩

/-- An HTTP stream that answers 429 to every request. -/
def stream429 : Nat → HttpOutcome := fun _ => .resp ⟨429, "", "", .null⟩

/-- The property that no response of the stream carries status 429. -/
def no429 (stream : Nat → HttpOutcome) : Prop :=
  ∀ i r, stream i = .resp r → r.status ≠ 429

/-- A stream answering every request with one page holding one order and
no continuation token. -/
def streamOnePage : Nat → HttpOutcome :=
  fun _ => .resp ⟨200, "application/json", "", .obj [("data", .arr [ord1])]⟩

/-- A Cloudflare challenge response: HTML 403 with bot-protection
markers. -/
def wafResp : HttpResp := ⟨403, "Text/HTML; charset=utf-8", "<HTML>Cloudflare challenge", .null⟩

/-- A stream answering every request with `wafResp`. -/
def streamWaf : Nat → HttpOutcome := fun _ => .resp wafResp

-- ==================================================================
-- Theorems
-- ==================================================================

/-- C7: `isOrderFinalized` is true iff at least one of archived/paid/
invoiced holds AND the integer total is strictly positive; the order
`archived=false, paid=false, invoiced=true, total_cents=1500` is
finalized while `archived=true, total_cents=0` is not; and a
non-finalized order is skipped by the per-order loop body with the state
(orders, conversions, calls) left untouched — in particular nothing is
deleted. -/
theorem c7_order_finalized :
    (∀ (a p i : Bool) (t : Int),
        isOrderFinalized a p i t = true ↔ ((a = true ∨ p = true ∨ i = true) ∧ 0 < t)) ∧
    isOrderFinalized false false true 1500 = true ∧
    isOrderFinalized true false false 0 = false ∧
    (∀ (env : Env) (ph : String) (pl : Json) (g : String) (st : LoopSt)
        (fs : List (String × Json)),
      isOrderFinalized ((jlookup fs "archived").getD .null).truthy
          ((jlookup fs "paid").getD .null).truthy
          ((jlookup fs "invoiced").getD .null).truthy
          (toTotalCents ((jlookup fs "totalCostCents").getD .null)) = false →
      processOrder env ph pl g st (.obj fs) = .ok st) := by
  refine ⟨?_, by decide, by decide, ?_⟩
  · intro a p i t
    simp only [isOrderFinalized, Bool.and_eq_true, Bool.or_eq_true, decide_eq_true_eq]
    exact ⟨fun h => ⟨by tauto, h.2⟩, fun h => ⟨by tauto, h.2⟩⟩
  · intro env ph pl g st fs h
    simp only [processOrder, h, Bool.not_false, if_pos rfl]
    rfl

/-- Witness for C7 at a concrete order and loop state. -/
theorem c7_witness :
    isOrderFinalized true false false 5 = true ∧
    processOrder envTriv "p" (.obj []) "" ⟨[], [], false, false, []⟩ (.obj []) =
      .ok ⟨[], [], false, false, []⟩ := by
  refine ⟨(c7_order_finalized.1 true false false 5).mpr ⟨Or.inl rfl, by decide⟩, ?_⟩
  exact c7_order_finalized.2.2.2 envTriv "p" (.obj []) "" ⟨[], [], false, false, []⟩ [] (by decide)

/-- C8 counterexample: `is_call_qualified` compares the status
case-SENSITIVELY, so at the status `"QUALIFIED"` it returns `false`,
while the claim's case-insensitive reading would return `true`. -/
theorem c8_counterexample :
    is_call_qualified "QUALIFIED" (.obj []) = .ok false ∧
    is_call_qualified_claimCI "QUALIFIED" (.obj []) = .ok true ∧
    (Except.ok false : Except Unit Bool) ≠ .ok true := by
  refine ⟨rfl, rfl, by simp⟩

/-- C8 (amended): for a dict payload, `is_call_qualified status payload`
is true iff the status is in the fixed set by a case-SENSITIVE match, OR
the milestones mapping contains a `"qualified"` key — the two signals
being independent; the claim's three examples hold as stated. -/
theorem c8_case_sensitive :
    (∀ (status : String) (ms : List (String × Json)),
      is_call_qualified status (.obj [("milestones", .obj ms)]) =
        .ok (qualifiedStatuses.contains status || ms.any (fun p => p.1 == "qualified"))) ∧
    (∀ (status : String),
      is_call_qualified status (.obj []) = .ok (qualifiedStatuses.contains status)) ∧
    is_call_qualified "qualified" (.obj []) = .ok true ∧
    is_call_qualified "new" (.obj [("milestones", .obj [("qualified", .obj [])])]) = .ok true ∧
    is_call_qualified "new" (.obj []) = .ok false := by
  refine ⟨?_, ?_, rfl, rfl, rfl⟩
  · intro status ms
    cases ms with
    | nil => rfl
    | cons h t => rfl
  · intro status
    show Except.ok (qualifiedStatuses.contains status || false) = _
    rw [Bool.or_false]

/-- Witness for C8 (amended) at a concrete status and payload. -/
theorem c8_witness :
    is_call_qualified "good_lead" (.obj [("milestones", .obj [])]) =
      .ok (qualifiedStatuses.contains "good_lead" || false) :=
  c8_case_sensitive.1 "good_lead" []

/-- C9 counterexample: for the 11-digit input `"11234567890"` the code's
`lstrip("1")` removes BOTH leading ones, producing the 9-digit
`"234567890"`, while the claim ("strips exactly one leading country-code
digit") yields `"1234567890"`. -/
theorem c9_counterexample :
    normalize_phone "11234567890" = some "234567890" ∧
    normalize_phone_claimOneStrip "11234567890" = some "1234567890" ∧
    (some "234567890" : Option String) ≠ some "1234567890" := by
  refine ⟨by decide, by decide, by decide⟩

/-- C9 (amended): `normalize_phone` strips all non-digit characters and
then ALL leading `'1'` characters (not exactly one, and regardless of the
digit count), returns `none` exactly for the empty input and never
throws; any returned string consists of digits only, does not start with
`'1'`, and is a suffix of the digit string; the claim's two examples hold
as stated. -/
theorem c9_strip_all_leading_ones :
    normalize_phone "(555) 123-4567" = some "5551234567" ∧
    normalize_phone "15551234567" = some "5551234567" ∧
    (∀ s : String, normalize_phone s = none ↔ s = "") ∧
    (∀ (s r : String), normalize_phone s = some r →
      (∀ c ∈ r.data, c.isDigit) ∧ (∀ c ∈ r.data.take 1, c ≠ '1') ∧
        r.data <:+ (stripNonDigits s).data) := by
  refine ⟨by decide, by decide, ?_, ?_⟩
  · intro s
    constructor
    · intro h
      by_contra hne
      simp [normalize_phone, hne] at h
    · intro h
      simp [normalize_phone, h]
  · intro s r h
    by_cases hs : s = ""
    · simp [normalize_phone, hs] at h
    · simp only [normalize_phone, if_neg hs, Option.some.injEq] at h
      subst h
      refine ⟨?_, ?_, ?_⟩
      · intro c hc
        have h1 : c ∈ (stripNonDigits s).data :=
          (List.dropWhile_sublist (fun c => c == '1')).subset hc
        exact (List.mem_filter.mp h1).2
      · intro c hc
        have : ∀ (l : List Char) (c : Char),
            c ∈ (l.dropWhile (fun x => x == '1')).take 1 → c ≠ '1' := by
          intro l
          induction l with
          | nil => intro c hc; simp at hc
          | cons a t ih =>
            intro c hc
            rw [List.dropWhile_cons] at hc
            by_cases ha : (a == '1') = true
            · rw [if_pos ha] at hc
              exact ih c hc
            · rw [if_neg ha] at hc
              have h1 : (a :: t).take 1 = [a] := rfl
              rw [h1, List.mem_singleton] at hc
              subst hc; simpa using ha
        exact this _ c hc
      · exact List.dropWhile_suffix (fun c => c == '1')

/-- Witness for C9 (amended) at the concrete input `"15551234567"`. -/
theorem c9_witness :
    (∀ c ∈ ("5551234567" : String).data, c.isDigit) ∧
    (∀ c ∈ ("5551234567" : String).data.take 1, c ≠ '1') ∧
    ("5551234567" : String).data <:+ (stripNonDigits "15551234567").data :=
  c9_strip_all_leading_ones.2.2.2 "15551234567" "5551234567" (by decide)

/-- C5 (code bug): with the same lead, an order lookup returning ZERO
orders makes the invocation reschedule with `countdown=3600` (one hour),
not the order-of-a-day 86400 that the claim — and the code's own
`"retrying in 24 hours"` log line and `self.retry(countdown=86400)`
call — state: the `Retry` raised inside the `try` block is an
`Exception` subclass, so it is caught by the `except Exception` clause
and re-raised with `countdown=3600`.  The lead's processed flag does
remain false. -/
theorem c5_code_eval :
    process_call_record envZero dbG 1 = some (.retry 3600, dbG, []) ∧
    (dbG.callRecords.find? (fun r => r.id == 1)).map (fun r => r.processed) = some false ∧
    (3600 : Nat) ≠ 86400 := by
  exact ⟨rfl, rfl, by decide⟩

/-- C3 (code bug): on a hard platform exception,
`upload_gclid_conversion` CATCHES `GoogleAdsException` and RETURNS an
error dict carrying the request id and error code instead of raising;
consequently the worker's `except GoogleAdsException` / retry-7200
handler never fires: the invocation COMMITS — the `CommerceOrder` is
upserted, the `ConversionRecord` is written with `uploaded=true`, the
lead is marked processed — and returns `"ok"`, not a medium-backoff
retry. -/
theorem c3_code_eval :
    upload_gclid_conversion (.error excQuota) =
      .err "req-7" "QuotaError" (some "RESOURCE_EXHAUSTED") ∧
    (process_call_record envExc dbG 1).map (fun r => r.1) = some .ok ∧
    (process_call_record envExc dbG 1).map (fun r => r.2.1.conversions) =
      some [⟨"G", "O1", 2500, true, []⟩] ∧
    (process_call_record envExc dbG 1).map
      (fun r => r.2.1.callRecords.map (fun c => c.processed)) = some [true] ∧
    (process_call_record envExc dbG 1).map (fun r => r.2.2) =
      some [.gclidUpload "G" "O1"] ∧
    (TaskOutcome.ok : TaskOutcome) ≠ .retry 7200 := by
  exact ⟨rfl, by decide, by decide, by decide, by decide, by decide⟩

/-- C2 counterexample: (i) `OfflineConversion` declares NO storage-layer
uniqueness, so a second insertion of the same (matching key, order
reference) pair is accepted — the claim's constraint would reject it;
(ii) a reconciliation run that finds the existing `uploaded=true` record
for ("G", "O1") still performs the ad-platform upload call for that
order — there is no pre-upload short-circuit, only the duplicate row
creation is avoided. -/
theorem c2_counterexample :
    insertAllowed offlineConversionUniqueSets [convG] convG = true ∧
    insertAllowed offlineConversionUniqueSets_claim [convG] convG = false ∧
    (process_call_record envOk dbRetry 1).map (fun r => r.2.2) =
      some [.gclidUpload "G" "O1"] ∧
    dbRetry.conversions = [convG] ∧ convG.uploaded = true := by
  exact ⟨rfl, rfl, rfl, rfl, rfl⟩

-- Invariant machinery: at most one ledger row per (key, order) pair ----

theorem pairCount_update (convs : List ConversionRow) (key oid k o : String)
    (rr : List String) :
    pairCount (convs.map (fun c => if c.gclid == key && c.orderRef == oid then
      { c with uploaded := true, upload_response := rr } else c)) k o =
      pairCount convs k o := by
  unfold pairCount
  rw [List.countP_map]
  apply List.countP_congr
  intro a _
  by_cases h : (a.gclid == key && a.orderRef == oid) = true
  · simp [Function.comp, h]
  · simp [Function.comp, h]

theorem pairCount_append_single (convs : List ConversionRow) (r : ConversionRow)
    (k o : String) :
    pairCount (convs ++ [r]) k o =
      pairCount convs k o + (if r.gclid == k && r.orderRef == o then 1 else 0) := by
  unfold pairCount
  rw [List.countP_append]
  simp [List.countP_cons]

theorem saveConversion_noDup {convs convs' : List ConversionRow} {key oid : String}
    {v : Int} {rr : List String} {created : Bool}
    (h : saveConversion convs key oid v rr = .ok (convs', created))
    (hnd : noDupPairs convs) : noDupPairs convs' := by
  unfold saveConversion at h
  by_cases hn : pairCount convs key oid ≥ 2
  · simp [hn] at h
  · simp only [if_neg hn, Except.ok.injEq, Prod.mk.injEq] at h
    obtain ⟨h1, -⟩ := h
    subst h1
    intro k o
    rw [pairCount_update]
    by_cases h0 : pairCount convs key oid = 0
    · simp only [if_pos h0]
      rw [pairCount_append_single]
      by_cases hko : (key == k && oid == o) = true
      · have hk : key = k := by
          have := (Bool.and_eq_true _ _).mp hko
          exact eq_of_beq this.1
        have ho : oid = o := by
          have := (Bool.and_eq_true _ _).mp hko
          exact eq_of_beq this.2
        subst hk; subst ho
        simp [h0]
      · have : pairCount convs k o + 0 ≤ 1 := by simpa using hnd k o
        simpa [hko] using this
    · simp only [if_neg h0]
      exact hnd k o

theorem processOrder_noDup {env : Env} {ph : String} {pl : Json} {g : String}
    {st st' : LoopSt} {o : Json}
    (h : processOrder env ph pl g st o = .ok st') (hnd : noDupPairs st.convs) :
    noDupPairs st'.convs := by
  cases o with
  | obj fs =>
    simp only [processOrder] at h
    split at h
    · cases h; exact hnd
    · split at h
      · -- gclid path; the service-call match reduced to the ok branch
        split at h
        · cases h
        · rename_i convs' hsave
          cases h
          exact saveConversion_noDup hsave hnd
      · -- enhanced path
        split at h
        · cases h
        · split at h
          · cases h
          · split at h
            · cases h; exact hnd
            · split at h
              · cases h
              · rename_i convs' hsave
                cases h
                exact saveConversion_noDup hsave hnd
  | null => cases h
  | bool b => cases h
  | num n => cases h
  | str s => cases h
  | arr xs => cases h

theorem processOrders_noDup {env : Env} {ph : String} {pl : Json} {g : String}
    {os : List Json} {st st' : LoopSt}
    (h : processOrders env ph pl g os st = .ok st') (hnd : noDupPairs st.convs) :
    noDupPairs st'.convs := by
  induction os generalizing st with
  | nil => cases h; exact hnd
  | cons o rest ih =>
    simp only [processOrders] at h
    split at h
    · cases h
    · rename_i st1 hstep
      exact ih h (processOrder_noDup hstep hnd)

/-- C2 (amended): every completed, rescheduled or failed invocation of
the worker preserves the application-level at-most-one-ledger-row per
(matching key, order reference) invariant — uniqueness of the pair is
maintained by `get_or_create` in application logic, not by the storage
schema. -/
theorem c2_app_level_uniqueness (env : Env) (db : DB) (rid : Nat)
    (out : TaskOutcome) (db' : DB) (calls : List CallEvent)
    (h : process_call_record env db rid = some (out, db', calls))
    (hnd : noDupPairs db.conversions) : noDupPairs db'.conversions := by
  unfold process_call_record at h
  split at h
  · cases h
  · split at h
    · cases h; exact hnd
    · split at h
      · cases h
      · split at h
        · cases h; exact hnd
        · split at h
          · cases h; exact hnd
          · cases h; exact hnd
          · rename_i st hloop
            split at h
            · cases h
              exact processOrders_noDup hloop hnd
            · cases h; exact hnd

/-- Witness for C2 (amended) at a concrete run: the already-processed
lead makes the invocation return with the database unchanged, whose
(empty) ledger satisfies the invariant. -/
theorem c2_witness :
    noDupPairs (DB.conversions ⟨[⟨1, "CR1", "p", "G", .obj [], true⟩], [], []⟩) :=
  c2_app_level_uniqueness envOk ⟨[⟨1, "CR1", "p", "G", .obj [], true⟩], [], []⟩ 1
    .already_processed ⟨[⟨1, "CR1", "p", "G", .obj [], true⟩], [], []⟩ [] rfl
    (fun k o => by simp [pairCount])

-- C10: termination of the order-lookup pagination loop ---------------

theorem fetchLoop_const429 :
    ∀ (fuel req : Nat) (out : List Json) (page : Nat) (tk : Option String)
      (pTok : Option Json), fetchLoop stream429 req out page tk pTok fuel = none := by
  intro fuel
  induction fuel with
  | zero => intro req out page tk pTok; rfl
  | succ n ih => intro req out page tk pTok; exact ih (req + 1) out page tk pTok

/-- C10 counterexample: under a persistent stream of 429 responses the
pagination loop never returns — for NO amount of fuel does
`fetch_orders_by_phone` produce a result, because the 429 branch retries
the same page without any retry bound. -/
theorem c10_counterexample :
    ¬ ∃ fuel, (fetch_orders_by_phone stream429 "5551234567" fuel).isSome = true := by
  rintro ⟨fuel, hf⟩
  have hn : ¬ normalize_us_phone "5551234567" = "" := by decide
  rw [fetch_orders_by_phone, if_neg hn, fetchLoop_const429] at hf
  cases hf

theorem fetchLoop_terminates {stream : Nat → HttpOutcome} (h429 : no429 stream) :
    ∀ (fuel req : Nat) (out : List Json) (page : Nat) (tk : Option String)
      (pTok : Option Json), max_pages - page < fuel →
      (fetchLoop stream req out page tk pTok fuel).isSome = true := by
  intro fuel
  induction fuel with
  | zero => intro req out page tk pTok hlt; omega
  | succ n ih =>
    intro req out page tk pTok hlt
    rw [fetchLoop]
    cases hs : stream req with
    | netError msg => rfl
    | resp r =>
      dsimp only
      by_cases hw : wafBlockedResp r = true
      · simp [hw]
      · rw [if_neg hw]
        by_cases h401 : r.status = 401
        · simp [h401]
        · rw [if_neg h401]
          rw [if_neg (h429 req r hs)]
          by_cases h2xx : (!(decide (200 ≤ r.status) && decide (r.status < 300))) = true
          · simp [h2xx]
          · rw [if_neg h2xx]
            cases hj : r.json with
            | obj fs =>
              dsimp only
              by_cases hnt : (!(match discoverTk tk fs with
                  | some k => (jlookup fs k).getD .null
                  | none => Json.null).truthy) = true
              · simp [hnt]
              · rw [if_neg hnt]
                by_cases hpg : page + 1 ≥ max_pages
                · simp [hpg]
                · rw [if_neg hpg]
                  exact ih (req + 1) (out ++ extractItems fs) (page + 1)
                    (discoverTk tk fs) _ (by omega)
            | null => rfl
            | bool b => rfl
            | num m => rfl
            | str s => rfl
            | arr xs => rfl

/-- C10 (amended): pagination is capped at `max_pages` and the
continuation-token field name is discovered among `next`,
`nextPageToken`, `pageToken`; on a 429 the client sleeps `2 + page`
seconds and retries the same page WITHOUT any retry bound, so the call
terminates on every upstream response sequence free of 429 responses
(within `max_pages + 1` loop iterations), but a persistent stream of
429s loops forever. -/
theorem c10_terminates_without_429 (stream : Nat → HttpOutcome) (phone : String)
    (h429 : no429 stream) :
    (fetch_orders_by_phone stream phone (max_pages + 1)).isSome = true := by
  rw [fetch_orders_by_phone]
  by_cases hn : normalize_us_phone phone = ""
  · rw [if_pos hn]; rfl
  · rw [if_neg hn]
    exact fetchLoop_terminates h429 (max_pages + 1) 0 [] 0 none none (by omega)

/-- Witness for C10 (amended): a concrete 429-free stream terminates. -/
theorem c10_witness :
    (fetch_orders_by_phone streamOnePage "5551234567" (max_pages + 1)).isSome = true :=
  c10_terminates_without_429 streamOnePage "5551234567"
    (fun i r h => by cases h; decide)

-- C6: bot-protection block is terminal ---------------------------------

/-- C6: a commerce-API response with status 403, an HTML content type and
bot-protection markers (Cloudflare or challenge markup in the first 300
characters of the body) makes `fetch_orders_by_phone` raise the distinct
terminal `ShopmonkeyWAFBlocked` error (not a retryable `apiError`), and
the worker then returns `waf_blocked` with the database unchanged and no
retry scheduled. -/
theorem c6_waf_terminal (stream : Nat → HttpOutcome) (r : HttpResp) (fuel : Nat)
    (google : String → Except GoogleAdsExc ClickConvResponse)
    (er : String → Option UploadResult) (hfn : String → String) (now : String)
    (db : DB) (rid : Nat) (recR : CallRecordRow)
    (hfind : db.callRecords.find? (fun x => x.id == rid) = some recR)
    (hphone : normalize_us_phone recR.phone ≠ "")
    (hs : stream 0 = .resp r)
    (h403 : r.status = 403)
    (hhtml : containsSub (strLower r.contentType) "text/html" = true)
    (hmark : (containsSub (strLower (strTake r.body 300)) "cloudflare" ||
              containsSub (strLower (strTake r.body 300)) "<html") = true) :
    fetch_orders_by_phone stream recR.phone (fuel + 1) =
      some (.error .wafBlocked) ∧
    processWithHttp stream (fuel + 1) google er hfn now db rid =
      some (.waf_blocked, db, []) := by
  have hwaf : wafBlockedResp r = true := by
    simp [wafBlockedResp, h403, hhtml, hmark]
  have hfetch : fetch_orders_by_phone stream recR.phone (fuel + 1) =
      some (.error .wafBlocked) := by
    rw [fetch_orders_by_phone, if_neg hphone, fetchLoop, hs]
    dsimp only
    rw [if_pos hwaf]
  refine ⟨hfetch, ?_⟩
  rw [processWithHttp, hfind]
  dsimp only
  rw [hfetch]
  dsimp only
  rw [process_call_record, hfind]
  rfl

/-- Witness for C6 at the concrete Cloudflare challenge response. -/
theorem c6_witness :
    fetch_orders_by_phone streamWaf "5551234567" 1 = some (.error .wafBlocked) ∧
    processWithHttp streamWaf 1 envOk.google envOk.enhancedResp envOk.hashFn "t"
      dbG 1 = some (.waf_blocked, dbG, []) :=
  c6_waf_terminal streamWaf wafResp 0 envOk.google envOk.enhancedResp envOk.hashFn
    "t" dbG 1 recG rfl (by decide) rfl rfl (by decide) (by decide)

-- Helper lemmas for the worker loop ------------------------------------

theorem find_setProcessed (l : List CallRecordRow) (rid : Nat) (r : CallRecordRow)
    (h : l.find? (fun x => x.id == rid) = some r) :
    (l.map (fun x => if x.id == rid then { x with processed := true } else x)).find?
      (fun x => x.id == rid) = some { r with processed := true } := by
  induction l with
  | nil => simp at h
  | cons a t ih =>
    by_cases hpa : (a.id == rid) = true
    · have hfc : (a :: t).find? (fun x => x.id == rid) = some a :=
        List.find?_cons_of_pos _ hpa
      rw [hfc] at h
      cases h
      rw [List.map_cons, if_pos hpa]
      exact List.find?_cons_of_pos _ hpa
    · have hfc : (a :: t).find? (fun x => x.id == rid) = t.find? (fun x => x.id == rid) :=
        List.find?_cons_of_neg _ hpa
      rw [hfc] at h
      rw [List.map_cons, if_neg hpa]
      have h1 : (a :: (t.map (fun x =>
            if (x.id == rid) = true then { x with processed := true } else x))).find?
              (fun x => x.id == rid) =
          (t.map (fun x =>
            if (x.id == rid) = true then { x with processed := true } else x)).find?
              (fun x => x.id == rid) :=
        List.find?_cons_of_neg _ hpa
      rw [h1]
      exact ih h

theorem processOrder_qual_mono {env : Env} {ph : String} {pl : Json} {g : String}
    {st st' : LoopSt} {o : Json}
    (h : processOrder env ph pl g st o = .ok st')
    (hq : st.qualifying_found = true) : st'.qualifying_found = true := by
  cases o with
  | obj fs =>
    simp only [processOrder] at h
    split at h
    · cases h; exact hq
    · split at h
      · split at h
        · cases h
        · cases h; rfl
      · split at h
        · cases h
        · split at h
          · cases h
          · split at h
            · cases h; rfl
            · split at h
              · cases h
              · cases h; rfl
  | null => cases h
  | bool b => cases h
  | num n => cases h
  | str s => cases h
  | arr xs => cases h

theorem processOrder_finalized_qual {env : Env} {ph : String} {pl : Json} {g : String}
    {st st' : LoopSt} {o : Json}
    (hfin : finalizedJ o = true)
    (h : processOrder env ph pl g st o = .ok st') : st'.qualifying_found = true := by
  cases o with
  | obj fs =>
    simp only [finalizedJ] at hfin
    simp only [processOrder] at h
    split at h
    · rename_i hskip
      rw [hfin] at hskip
      cases hskip
    · split at h
      · split at h
        · cases h
        · cases h; rfl
      · split at h
        · cases h
        · split at h
          · cases h
          · split at h
            · cases h; rfl
            · split at h
              · cases h
              · cases h; rfl
  | null => cases h
  | bool b => cases h
  | num n => cases h
  | str s => cases h
  | arr xs => cases h

theorem processOrders_qual_mono {env : Env} {ph : String} {pl : Json} {g : String}
    {os : List Json} {st st' : LoopSt}
    (h : processOrders env ph pl g os st = .ok st')
    (hq : st.qualifying_found = true) : st'.qualifying_found = true := by
  induction os generalizing st with
  | nil => cases h; exact hq
  | cons o rest ih =>
    simp only [processOrders] at h
    split at h
    · cases h
    · rename_i st1 hstep
      exact ih h (processOrder_qual_mono hstep hq)

theorem processOrders_qual {env : Env} {ph : String} {pl : Json} {g : String}
    {os : List Json} {st st' : LoopSt}
    (h : processOrders env ph pl g os st = .ok st')
    (hex : ∃ o ∈ os, finalizedJ o = true) : st'.qualifying_found = true := by
  induction os generalizing st with
  | nil => simp at hex
  | cons o rest ih =>
    simp only [processOrders] at h
    split at h
    · cases h
    · rename_i st1 hstep
      obtain ⟨o', ho', hfin⟩ := hex
      rcases List.mem_cons.mp ho' with rfl | hmem
      · exact processOrders_qual_mono h (processOrder_finalized_qual hfin hstep)
      · exact ih h ⟨o', hmem, hfin⟩

theorem processOrder_no_retry {env : Env} {ph : String} {pl : Json}
    {st : LoopSt} {o : Json} {c : Nat} {calls : List CallEvent} :
    processOrder env ph pl "" st o ≠ .error (.retry c calls) := by
  intro h
  cases o with
  | obj fs =>
    simp only [processOrder] at h
    split at h
    · cases h
    · split at h
      · rename_i hg
        exact hg rfl
      · split at h
        · cases h
        · split at h
          · cases h
          · split at h
            · cases h
            · split at h
              · cases h
              · cases h
  | null => cases h
  | bool b => cases h
  | num n => cases h
  | str s => cases h
  | arr xs => cases h

theorem processOrders_no_retry {env : Env} {ph : String} {pl : Json}
    {os : List Json} {st : LoopSt} {c : Nat} {calls : List CallEvent} :
    processOrders env ph pl "" os st ≠ .error (.retry c calls) := by
  intro h
  induction os generalizing st with
  | nil => cases h
  | cons o rest ih =>
    simp only [processOrders] at h
    split at h
    · rename_i a hstep
      cases h
      exact processOrder_no_retry hstep
    · exact ih h

theorem step1_error_shape {f : Except FetchErr (List Json)} {o : TaskOutcome}
    (h : step1 f = .error o) : o = .waf_blocked ∨ o = .retry 3600 := by
  unfold step1 at h
  split at h
  · cases h; exact Or.inl rfl
  · cases h; exact Or.inr rfl
  · split at h
    · cases h; exact Or.inr rfl
    · cases h

/-- C4: (spec-modelled callee) `upload_enhanced_conversion` — not under
`src/`, modelled from the spec — requires at least one digest and
returns `none` (a skip, not an error) when both are absent, performing
the platform operation otherwise.  (Worker, per finalized order of a
no-click-identifier lead) the loop body attempts the hashed-identity
upload with the normalized+hashed phone and any email hash from the raw
payload when at least one digest exists; when both are absent it makes
NO upload call but still upserts the order mirror and keeps the order
observed as finalized.  (Whole run) an unprocessed lead with no click
identifier whose lookup yields some finalized order ends with
`processed=true` (and outcome `ok`/`pending_orders`) in every run that
does not crash. -/
theorem c4_hashed_fallback :
    (∀ (er : String → Option UploadResult) (v : Int) (t oid : String),
      upload_enhanced_conversion er none none v t oid = none) ∧
    (∀ (er : String → Option UploadResult) (ph em : Option String) (v : Int)
        (t oid : String), ph ≠ none ∨ em ≠ none →
      upload_enhanced_conversion er ph em v t oid = er oid) ∧
    (∀ (env : Env) (recPhone : String) (recPayload : Json) (st : LoopSt)
        (fs : List (String × Json)) (emJ : Json) (em : Option String),
      finalizedJ (.obj fs) = true →
      pyGet recPayload "customer_email" = .ok emJ →
      hashJsonValue env.hashFn emJ = .ok em →
      ((hash_identifier env.hashFn (normalize_phone recPhone) = none ∧ em = none →
        processOrder env recPhone recPayload "" st (.obj fs) =
          .ok { st with qualifying_found := true, orders := upsertOrder st.orders (orderRowOf recPhone fs) }) ∧
       (hash_identifier env.hashFn (normalize_phone recPhone) ≠ none ∨ em ≠ none →
        callsOf (processOrder env recPhone recPayload "" st (.obj fs)) =
          st.calls ++ [.enhancedUpload
            (hash_identifier env.hashFn (normalize_phone recPhone)) em
            (orderIdOf fs)]))) ∧
    (∀ (env : Env) (db : DB) (rid : Nat) (recR : CallRecordRow)
        (orders : List Json) (out : TaskOutcome) (db' : DB)
        (calls : List CallEvent),
      db.callRecords.find? (fun x => x.id == rid) = some recR →
      recR.gclid = "" → recR.processed = false →
      env.fetch = .ok orders → orders.isEmpty = false →
      (∃ o ∈ orders, finalizedJ o = true) →
      process_call_record env db rid = some (out, db', calls) →
      out = .failed ∨ ((out = .ok ∨ out = .pending_orders) ∧
        (db'.callRecords.find? (fun x => x.id == rid)).map (fun x => x.processed) =
          some true)) := by
  refine ⟨?_, ?_, ?_, ?_⟩
  · intro er v t oid
    simp [upload_enhanced_conversion]
  · intro er ph em v t oid hne
    rw [upload_enhanced_conversion, if_neg]
    intro ⟨h1, h2⟩
    rcases hne with h | h
    · exact h h1
    · exact h h2
  · intro env recPhone recPayload st fs emJ em hfin hemail hhash
    simp only [finalizedJ] at hfin
    constructor
    · intro ⟨hp, he⟩
      simp only [processOrder, hfin, Bool.not_true, Bool.false_eq_true, if_false,
        ne_eq, not_true_eq_false, if_neg, hemail, hhash]
      rw [if_pos ⟨hp, he⟩]
    · intro hne
      simp only [processOrder, hfin, Bool.not_true, Bool.false_eq_true, if_false,
        ne_eq, not_true_eq_false, if_neg, hemail, hhash]
      rw [if_neg]
      · split
        · rfl
        · rfl
      · intro ⟨h1, h2⟩
        rcases hne with h | h
        · exact h h1
        · exact h h2
  · intro env db rid recR orders out db' calls hfind hg hproc hfetch hne hex h
    unfold process_call_record at h
    rw [hfind] at h
    dsimp only at h
    rw [show step1 env.fetch = .ok orders by simp [step1, hfetch, hne]] at h
    dsimp only at h
    rw [if_neg (by rw [hproc]; exact Bool.false_ne_true)] at h
    rw [hg] at h
    cases hloop : processOrders env recR.phone recR.payload "" orders
        { orders := db.orders, convs := db.conversions, created_any := false,
          qualifying_found := false, calls := [] } with
    | error a =>
      cases a with
      | retry c cs => exact absurd hloop processOrders_no_retry
      | crash cs =>
        rw [hloop] at h
        dsimp only at h
        cases h
        exact Or.inl rfl
    | ok st =>
      rw [hloop] at h
      dsimp only at h
      have hq : st.qualifying_found = true := processOrders_qual hloop hex
      rw [if_pos (by rw [hq, Bool.or_true])] at h
      cases h
      refine Or.inr ⟨?_, ?_⟩
      · cases hca : st.created_any
        · simp [hca]
        · simp [hca]
      · rw [find_setProcessed db.callRecords rid recR hfind]
        rfl

/-- Witness for C4 at the concrete no-identifier lead `recP` and the
finalized order `ord1`. -/
theorem c4_witness :
    TaskOutcome.pending_orders = .failed ∨
    ((TaskOutcome.pending_orders = .ok ∨ TaskOutcome.pending_orders = .pending_orders) ∧
      (dbP'.callRecords.find? (fun x => x.id == 1)).map (fun x => x.processed) =
        some true) :=
  c4_hashed_fallback.2.2.2 envP dbP 1 recP [ord1] .pending_orders dbP' [] rfl rfl rfl
    rfl rfl ⟨ord1, by simp, by decide⟩ rfl

/-- C1: if an invocation of the worker completes (returns `ok` or
`pending_orders`), it has set the lead's `processed` flag; a second
invocation with the SAME environment (same upstream responses) re-reads
the flag inside the critical section, returns `already_processed`,
leaves the database — in particular the ConversionRecord ledger —
completely unchanged and performs no ad-platform call; and the ledger
after the first invocation holds at most one record per
(matching key, order) pair. -/
theorem c1_second_invocation_noop (env : Env) (db : DB) (rid : Nat)
    (out₁ : TaskOutcome) (db₁ : DB) (calls₁ : List CallEvent)
    (h₁ : process_call_record env db rid = some (out₁, db₁, calls₁))
    (hdone : out₁ = .ok ∨ out₁ = .pending_orders)
    (hnd : noDupPairs db.conversions) :
    (db₁.callRecords.find? (fun r => r.id == rid)).map (fun r => r.processed) =
      some true ∧
    process_call_record env db₁ rid = some (.already_processed, db₁, []) ∧
    noDupPairs db₁.conversions := by
  unfold process_call_record at h₁
  split at h₁
  · cases h₁
  · rename_i base hfind
    split at h₁
    · rename_i o hstep
      cases h₁
      rcases step1_error_shape hstep with rfl | rfl
      · rcases hdone with h | h
        · cases h
        · cases h
      · rcases hdone with h | h
        · cases h
        · cases h
    · rename_i orders hstep
      split at h₁
      · cases h₁
      · rename_i record hfind2
        have hbr : base = record := by cases hfind2; rfl
        subst hbr
        split at h₁
        · rename_i hp
          cases h₁
          rcases hdone with h | h
          · cases h
          · cases h
        · rename_i hp
          split at h₁
          · cases h₁
            rcases hdone with h | h
            · cases h
            · cases h
          · cases h₁
            rcases hdone with h | h
            · cases h
            · cases h
          · rename_i st hloop
            split at h₁
            · rename_i hcq
              cases h₁
              have hfind' := find_setProcessed db.callRecords rid base hfind
              refine ⟨?_, ?_, ?_⟩
              · rw [hfind']
                rfl
              · rw [process_call_record]
                dsimp only
                rw [hfind']
                dsimp only
                rw [show step1 env.fetch = .ok orders from hstep]
                dsimp only
                rw [if_pos rfl]
              · exact processOrders_noDup hloop hnd
            · cases h₁
              rcases hdone with h | h
              · cases h
              · cases h

/-- Witness for C1 at the concrete gclid lead `recG`: the first run
commits `dbG'`, the second returns `already_processed` unchanged. -/
theorem c1_witness :
    ((dbG'.callRecords.find? (fun r => r.id == 1)).map (fun r => r.processed) =
      some true) ∧
    process_call_record envOk dbG' 1 = some (.already_processed, dbG', []) ∧
    noDupPairs dbG'.conversions :=
  c1_second_invocation_noop envOk dbG 1 .ok dbG' [.gclidUpload "G" "O1"] rfl
    (Or.inl rfl) (fun k o => by simp [dbG, pairCount])

end LeadBridge
